import Mathlib

/-!
Shallow embedding of the Blandford-Znajek jet physics model of this
repository: the class `BlandfordZnajekJet` and `RelativisticEffects` from
`src/physics.py`, and the legacy standalone `BlandfordZnajekJet` from
`src/bzsim.py`.  Machine floats are modelled as real numbers; the draws
from `np.random.random()` and `np.random.randn()` are passed to the
fluctuation operations as explicit arguments.  Stateful methods become
functions from the state record to a new state record (paired with the
returned value where the method returns one).
-/

noncomputable section

namespace BZ

/-- Speed of light in cm/s (module constant `C` of `physics.py`). -/
def C : ℝ := 2.99792458e10

/-- Gravitational constant in cgs (module constant `G` of `physics.py`). -/
def G : ℝ := 6.67430e-8

/-- Solar mass in grams (module constant `MSUN` of `physics.py`). -/
def MSUN : ℝ := 1.98847e33

/-- Efficiency factor of `bzsim.py` (module constant `KAPPA`). -/
def KAPPA : ℝ := 0.05

lemma C_pos : 0 < C := by norm_num [C]

lemma G_pos : 0 < G := by norm_num [G]

lemma MSUN_pos : 0 < MSUN := by norm_num [MSUN]

lemma KAPPA_pos : 0 < KAPPA := by norm_num [KAPPA]

/-- State of `physics.BlandfordZnajekJet`: the three stored inputs
together with every derived attribute set by
`_update_derived_quantities`. -/
structure BlandfordZnajekJet where
  mass : ℝ
  spin : ℝ
  B : ℝ
  schwarzschild_radius : ℝ
  black_hole_radius : ℝ
  omega_H : ℝ
  phi_BH : ℝ
  power : ℝ
  jet_velocity : ℝ
  energy_density : ℝ
  isco_radius : ℝ

/-- `Z1` of the Bardeen-Press-Teukolsky ISCO formula
(`physics.py`, `_update_derived_quantities`). -/
def Z1 (a : ℝ) : ℝ :=
  1 + (1 - a ^ 2) ^ ((1 : ℝ) / 3) * ((1 + a) ^ ((1 : ℝ) / 3) + (1 - a) ^ ((1 : ℝ) / 3))

/-- `Z2` of the Bardeen-Press-Teukolsky ISCO formula. -/
def Z2 (a : ℝ) : ℝ := Real.sqrt (3 * a ^ 2 + Z1 a ^ 2)

/-- The dimensionless ISCO radius `r_ISCO / r_g` computed by the `a > 0`
branch of `_update_derived_quantities`. -/
def iscoFactor (a : ℝ) : ℝ :=
  3 + Z2 a - Real.sqrt ((3 - Z1 a) * (3 + Z1 a + 2 * Z2 a))

/-- The empirical jet-velocity saturation curve of
`_update_derived_quantities` (lines 106-109 of `physics.py`):
`power_factor = min(power / 1e39, 10.0)` and
`jet_velocity = 0.8 + 0.15 * tanh(power_factor / 5.0)`. -/
def jet_velocity_of_power (power : ℝ) : ℝ :=
  0.8 + 0.15 * Real.tanh (min (power / 1e39) 10 / 5)

/-- `BlandfordZnajekJet._update_derived_quantities` applied to stored
inputs `(mass, spin, B)`: recomputes every derived attribute. -/
def update_derived_quantities (mass spin B : ℝ) : BlandfordZnajekJet :=
  let M_cgs := mass * MSUN
  let a := spin
  let schwarzschild_radius := 2 * G * M_cgs / C ^ 2
  let black_hole_radius := G * M_cgs / C ^ 2 * (1 + Real.sqrt (1 - a ^ 2))
  let omega_H := a * C / (2 * black_hole_radius)
  let phi_BH := B * Real.pi * black_hole_radius ^ 2
  let efficiency := 0.1 * a ^ 2
  let power := efficiency * (omega_H * phi_BH) ^ 2 / (4 * Real.pi * C)
  let jet_velocity := jet_velocity_of_power power
  let energy_density := power / (Real.pi * (black_hole_radius * 10) ^ 2)
  let isco_radius :=
    if 0 < a then iscoFactor a * (G * M_cgs / C ^ 2) else 6 * G * M_cgs / C ^ 2
  { mass := mass, spin := spin, B := B,
    schwarzschild_radius := schwarzschild_radius,
    black_hole_radius := black_hole_radius,
    omega_H := omega_H, phi_BH := phi_BH, power := power,
    jet_velocity := jet_velocity, energy_density := energy_density,
    isco_radius := isco_radius }

/-- Constructor of `physics.BlandfordZnajekJet`: stores the raw
arguments (no clamping) and recomputes the derived quantities. -/
def init (mass spin B : ℝ) : BlandfordZnajekJet :=
  update_derived_quantities mass spin B

/-- The `mass` property setter: clamps to a minimum of 0.1 solar masses
and recomputes the derived quantities. -/
def set_mass (s : BlandfordZnajekJet) (value : ℝ) : BlandfordZnajekJet :=
  update_derived_quantities (max 0.1 value) s.spin s.B

/-- The `spin` property setter: clamps to `[0, 0.999]` and recomputes
the derived quantities. -/
def set_spin (s : BlandfordZnajekJet) (value : ℝ) : BlandfordZnajekJet :=
  update_derived_quantities s.mass (max 0 (min 0.999 value)) s.B

/-- The `B` property setter: clamps to a minimum of 1 Gauss and
recomputes the derived quantities. -/
def set_B (s : BlandfordZnajekJet) (value : ℝ) : BlandfordZnajekJet :=
  update_derived_quantities s.mass s.spin (max 1 value)

/-- `get_physical_scales`: the snapshot of derived quantities returned
to the geometry layer, in the order of the Python dictionary. -/
def get_physical_scales (s : BlandfordZnajekJet) : ℝ × ℝ × ℝ × ℝ × ℝ × ℝ :=
  (s.black_hole_radius, s.schwarzschild_radius, s.isco_radius,
   s.jet_velocity, s.power, s.energy_density)

/-- The local variable `fluct_factor` of
`physics.BlandfordZnajekJet.fluctuate`; `r` is the
`np.random.random()` draw (uniform on `[0, 1)`). -/
def fluct_factor (t r : ℝ) : ℝ :=
  let fast_fluct := 0.1 * Real.sin (2 * Real.pi * t / 3)
  let slow_fluct := 0.05 * Real.sin (2 * Real.pi * t / 20)
  let random_fluct := 0.03 * (r - 0.5)
  1 + fast_fluct + slow_fluct + random_fluct

/-- `physics.BlandfordZnajekJet.fluctuate`: assigns no attribute, so the
state passes through unchanged; returns `self.power * fluct_factor`. -/
def fluctuate (s : BlandfordZnajekJet) (t r : ℝ) : BlandfordZnajekJet × ℝ :=
  (s, s.power * fluct_factor t r)

/-- State of `physics.RelativisticEffects`. -/
structure RelativisticEffects where
  jet_velocity : ℝ
  gamma : ℝ

/-- Constructor of `RelativisticEffects`: stores the raw velocity (no
clamping) and computes the Lorentz factor directly from it. -/
def RelativisticEffects.init (jet_velocity : ℝ) : RelativisticEffects :=
  { jet_velocity := jet_velocity,
    gamma := 1 / Real.sqrt (1 - jet_velocity ^ 2) }

/-- `RelativisticEffects.update_jet_velocity`: clamps the new velocity
to `[0.1, 0.999]` and recomputes the Lorentz factor. -/
def update_jet_velocity (s : RelativisticEffects) (new_velocity : ℝ) :
    RelativisticEffects :=
  let v := max 0.1 (min 0.999 new_velocity)
  { jet_velocity := v, gamma := 1 / Real.sqrt (1 - v ^ 2) }

/-- `RelativisticEffects.calculate_doppler_factor`:
`1 / (gamma * (1 - beta * cos(theta) * dir))` clamped to `[0.01, 50]`. -/
def calculate_doppler_factor (s : RelativisticEffects)
    (viewing_angle jet_direction : ℝ) : ℝ :=
  let beta := s.jet_velocity
  let cos_theta := Real.cos viewing_angle * jet_direction
  let doppler_factor := 1 / (s.gamma * (1 - beta * cos_theta))
  max 0.01 (min doppler_factor 50)

/-- State of the legacy `bzsim.BlandfordZnajekJet`. -/
structure BZSimJet where
  mass : ℝ
  spin : ℝ
  B : ℝ
  power : ℝ
  energy_density : ℝ

/-- Constructor of `bzsim.BlandfordZnajekJet` followed by its
`update_jet_power` (called from `__init__`). -/
def bzsim_init (mass spin B : ℝ) : BZSimJet :=
  let M_cgs := mass * MSUN
  let power := KAPPA / (4 * Real.pi * C) * spin ^ 2 * B ^ 2 * M_cgs ^ 2
  { mass := mass, spin := spin, B := B, power := power,
    energy_density := power / (Real.pi * (1e15) ^ 2) }

/-- The local fluctuation factor `fluct` of `bzsim.fluctuate`; `r` is
the `np.random.randn()` draw (standard normal, unbounded). -/
def bzsim_fluct (t r : ℝ) : ℝ :=
  1 + 0.2 * Real.sin (2 * Real.pi * t / 5) + 0.1 * r

/-- `bzsim.BlandfordZnajekJet.fluctuate`: multiplies the stored power
and energy density by the fluctuation factor in place. -/
def bzsim_fluctuate (s : BZSimJet) (t r : ℝ) : BZSimJet :=
  { s with power := s.power * bzsim_fluct t r,
           energy_density := s.energy_density * bzsim_fluct t r }

/-! ### Unfolding lemmas for the stored attributes -/

lemma update_mass_eq (m a b : ℝ) : (update_derived_quantities m a b).mass = m := rfl

lemma update_spin_eq (m a b : ℝ) : (update_derived_quantities m a b).spin = a := rfl

lemma update_B_eq (m a b : ℝ) : (update_derived_quantities m a b).B = b := rfl

lemma update_power_eq (m a b : ℝ) :
    (update_derived_quantities m a b).power =
      0.1 * a ^ 2 *
        (a * C / (2 * (G * (m * MSUN) / C ^ 2 * (1 + Real.sqrt (1 - a ^ 2)))) *
          (b * Real.pi * (G * (m * MSUN) / C ^ 2 * (1 + Real.sqrt (1 - a ^ 2))) ^ 2)) ^ 2 /
        (4 * Real.pi * C) := rfl

lemma update_jet_velocity_eq (m a b : ℝ) :
    (update_derived_quantities m a b).jet_velocity =
      jet_velocity_of_power ((update_derived_quantities m a b).power) := rfl

lemma update_isco_eq (m a b : ℝ) :
    (update_derived_quantities m a b).isco_radius =
      if 0 < a then iscoFactor a * (G * (m * MSUN) / C ^ 2)
      else 6 * G * (m * MSUN) / C ^ 2 := rfl

lemma init_jet_velocity (v : ℝ) : (RelativisticEffects.init v).jet_velocity = v := rfl

lemma init_gamma (v : ℝ) :
    (RelativisticEffects.init v).gamma = 1 / Real.sqrt (1 - v ^ 2) := rfl

lemma update_jet_velocity_v (s : RelativisticEffects) (v : ℝ) :
    (update_jet_velocity s v).jet_velocity = max 0.1 (min 0.999 v) := rfl

lemma update_jet_velocity_gamma (s : RelativisticEffects) (v : ℝ) :
    (update_jet_velocity s v).gamma =
      1 / Real.sqrt (1 - max 0.1 (min 0.999 v) ^ 2) := rfl

lemma doppler_def (s : RelativisticEffects) (θ d : ℝ) :
    calculate_doppler_factor s θ d =
      max 0.01 (min (1 / (s.gamma * (1 - s.jet_velocity * (Real.cos θ * d)))) 50) := rfl

/-! ### Hyperbolic-tangent facts

Mathlib at this version has only the definitional lemmas about
`Real.tanh`, so the boundedness and monotonicity facts needed for the
jet-velocity saturation curve are derived here from the exponential
form `tanh x = 1 - 2 / (exp (2 x) + 1)`. -/

lemma tanh_eq_one_sub (x : ℝ) :
    Real.tanh x = 1 - 2 / (Real.exp (2 * x) + 1) := by
  rw [Real.tanh_eq_sinh_div_cosh, Real.sinh_eq, Real.cosh_eq]
  have h1 : 0 < Real.exp x := Real.exp_pos x
  have h2 : Real.exp (2 * x) = Real.exp x * Real.exp x := by
    rw [two_mul, Real.exp_add]
  rw [h2, Real.exp_neg]
  have h4 : Real.exp x + (Real.exp x)⁻¹ ≠ 0 := by positivity
  have h5 : Real.exp x * Real.exp x + 1 ≠ 0 := by positivity
  field_simp
  ring

lemma tanh_lt_one (x : ℝ) : Real.tanh x < 1 := by
  rw [tanh_eq_one_sub]
  have h : 0 < 2 / (Real.exp (2 * x) + 1) := by positivity
  linarith

lemma tanh_nonneg {x : ℝ} (hx : 0 ≤ x) : 0 ≤ Real.tanh x := by
  rw [tanh_eq_one_sub]
  have h1 : (1 : ℝ) ≤ Real.exp (2 * x) := by
    rw [show (1 : ℝ) = Real.exp 0 from Real.exp_zero.symm]
    exact Real.exp_le_exp.mpr (by linarith)
  have h2 : (0 : ℝ) < Real.exp (2 * x) + 1 := by positivity
  rw [sub_nonneg, div_le_one h2]
  linarith

lemma tanh_mono {x y : ℝ} (h : x ≤ y) : Real.tanh x ≤ Real.tanh y := by
  rw [tanh_eq_one_sub, tanh_eq_one_sub]
  have h1 : Real.exp (2 * x) ≤ Real.exp (2 * y) := Real.exp_le_exp.mpr (by linarith)
  have h2 : (0 : ℝ) < Real.exp (2 * x) + 1 := by positivity
  have h3 : 2 / (Real.exp (2 * y) + 1) ≤ 2 / (Real.exp (2 * x) + 1) := by
    gcongr
  linarith

/-! ### A closed form for the computed jet power -/

/-- For positive mass the computed Blandford-Znajek power factors as a
positive constant times `a ^ 4 * (1 + sqrt (1 - a ^ 2)) ^ 2`. -/
lemma power_eq (m a b : ℝ) (hm : 0 < m) :
    (update_derived_quantities m a b).power =
      Real.pi * C * b ^ 2 * (G * (m * MSUN) / C ^ 2) ^ 2 / 160 *
        (a ^ 4 * (1 + Real.sqrt (1 - a ^ 2)) ^ 2) := by
  have hs : 0 ≤ Real.sqrt (1 - a ^ 2) := Real.sqrt_nonneg _
  have hG := G_pos
  have hM := MSUN_pos
  have hC := C_pos
  have hπ : (0 : ℝ) < Real.pi := Real.pi_pos
  have hrg : 0 < G * (m * MSUN) / C ^ 2 := by positivity
  have hrH : (0 : ℝ) < G * (m * MSUN) / C ^ 2 * (1 + Real.sqrt (1 - a ^ 2)) := by
    have : (0 : ℝ) < 1 + Real.sqrt (1 - a ^ 2) := by linarith
    positivity
  rw [update_power_eq]
  have hπ' : Real.pi ≠ 0 := ne_of_gt hπ
  have hC' : C ≠ 0 := ne_of_gt hC
  have hrH' : G * (m * MSUN) / C ^ 2 * (1 + Real.sqrt (1 - a ^ 2)) ≠ 0 := ne_of_gt hrH
  field_simp
  ring

/-- The spin-dependent factor `a ^ 4 * (1 + sqrt (1 - a ^ 2)) ^ 2` of the
computed power is non-decreasing as long as `a ^ 2 ≤ 8 / 9`. -/
lemma spinFactor_mono {a₁ a₂ : ℝ} (h0 : 0 ≤ a₁) (h12 : a₁ ≤ a₂)
    (h89 : a₂ ^ 2 ≤ 8 / 9) :
    a₁ ^ 4 * (1 + Real.sqrt (1 - a₁ ^ 2)) ^ 2 ≤
      a₂ ^ 4 * (1 + Real.sqrt (1 - a₂ ^ 2)) ^ 2 := by
  set s₁ := Real.sqrt (1 - a₁ ^ 2) with hs₁def
  set s₂ := Real.sqrt (1 - a₂ ^ 2) with hs₂def
  have ha₁₂ : a₁ ^ 2 ≤ a₂ ^ 2 := pow_le_pow_left h0 h12 2
  have h1 : (0 : ℝ) ≤ 1 - a₁ ^ 2 := by nlinarith
  have h2 : (0 : ℝ) ≤ 1 - a₂ ^ 2 := by nlinarith
  have hs₁sq : s₁ ^ 2 = 1 - a₁ ^ 2 := Real.sq_sqrt h1
  have hs₂sq : s₂ ^ 2 = 1 - a₂ ^ 2 := Real.sq_sqrt h2
  have hs₂lb : (1 : ℝ) / 3 ≤ s₂ := by
    rw [hs₂def, Real.le_sqrt (by norm_num) h2]
    nlinarith
  have hss : s₂ ≤ s₁ := Real.sqrt_le_sqrt (by nlinarith)
  have hs₁ub : s₁ ≤ 1 := by
    rw [hs₁def]
    exact Real.sqrt_le_one.mpr (by nlinarith)
  have hs₂nn : (0 : ℝ) ≤ s₂ := Real.sqrt_nonneg _
  have h13₁ : (0 : ℝ) ≤ s₁ - 1 / 3 := by linarith
  have h13₂ : (0 : ℝ) ≤ s₂ - 1 / 3 := by linarith
  have hbr : (0 : ℝ) ≤ s₁ + s₂ + (s₁ ^ 2 + s₁ * s₂ + s₂ ^ 2) - 1 := by
    nlinarith [mul_nonneg h13₁ h13₂, mul_nonneg h13₁ h13₁, mul_nonneg h13₂ h13₂]
  have key : (1 - s₁ ^ 2) * (1 + s₁) ≤ (1 - s₂ ^ 2) * (1 + s₂) := by
    nlinarith [mul_nonneg (sub_nonneg.mpr hss) hbr]
  have gpos : (0 : ℝ) ≤ (1 - s₁ ^ 2) * (1 + s₁) :=
    mul_nonneg (by nlinarith) (by linarith)
  calc a₁ ^ 4 * (1 + s₁) ^ 2
      = ((1 - s₁ ^ 2) * (1 + s₁)) ^ 2 := by
        rw [show a₁ ^ 4 = (a₁ ^ 2) ^ 2 by ring,
            show a₁ ^ 2 = 1 - s₁ ^ 2 by linarith]
        ring
    _ ≤ ((1 - s₂ ^ 2) * (1 + s₂)) ^ 2 := pow_le_pow_left gpos key 2
    _ = a₂ ^ 4 * (1 + s₂) ^ 2 := by
        rw [show (1 : ℝ) - s₂ ^ 2 = a₂ ^ 2 by linarith]
        ring

/-! ### Claim C1 -/

/-- Claim C1 (counterexample): with mass and magnetic field fixed at the
default values, raising the spin from 0.95 to 0.99 strictly decreases the
computed jet power, so `jetPower` is not monotonically non-decreasing in
the spin over `[0, 1)`. -/
theorem C1_counterexample :
    (update_derived_quantities 10 0.99 1e4).power <
      (update_derived_quantities 10 0.95 1e4).power := by
  rw [power_eq 10 0.99 1e4 (by norm_num), power_eq 10 0.95 1e4 (by norm_num)]
  have h99 : Real.sqrt (1 - (0.99 : ℝ) ^ 2) < 0.1412 := by
    rw [Real.sqrt_lt' (by norm_num)]
    norm_num
  have h95 : (0.312 : ℝ) < Real.sqrt (1 - (0.95 : ℝ) ^ 2) := by
    rw [Real.lt_sqrt (by norm_num)]
    norm_num
  have h99n : 0 ≤ Real.sqrt (1 - (0.99 : ℝ) ^ 2) := Real.sqrt_nonneg _
  have h95n : 0 ≤ Real.sqrt (1 - (0.95 : ℝ) ^ 2) := Real.sqrt_nonneg _
  have hK : 0 < Real.pi * C * (1e4 : ℝ) ^ 2 * (G * (10 * MSUN) / C ^ 2) ^ 2 / 160 := by
    have hG := G_pos
    have hM := MSUN_pos
    have hC := C_pos
    have hπ := Real.pi_pos
    positivity
  apply mul_lt_mul_of_pos_left _ hK
  have e1 : (1 + Real.sqrt (1 - (0.99 : ℝ) ^ 2)) ^ 2 < 1.1412 ^ 2 := by nlinarith
  have e2 : (1.312 : ℝ) ^ 2 < (1 + Real.sqrt (1 - (0.95 : ℝ) ^ 2)) ^ 2 := by nlinarith
  nlinarith [e1, e2]

/-- Claim C1 (amended): for fixed mass and spin the computed jet power is
monotonically non-decreasing in the magnetic field (over nonnegative
fields), and for fixed positive mass and field it is monotonically
non-decreasing in the spin only on the range where `a ^ 2 ≤ 8 / 9`. -/
theorem C1_power_monotone :
    (∀ m a b₁ b₂ : ℝ, 0 ≤ b₁ → b₁ ≤ b₂ →
       (update_derived_quantities m a b₁).power ≤
         (update_derived_quantities m a b₂).power) ∧
    (∀ m b a₁ a₂ : ℝ, 0 < m → 0 ≤ a₁ → a₁ ≤ a₂ → a₂ ^ 2 ≤ 8 / 9 →
       (update_derived_quantities m a₁ b).power ≤
         (update_derived_quantities m a₂ b).power) := by
  constructor
  · intro m a b₁ b₂ hb0 hb12
    rw [update_power_eq, update_power_eq]
    have hC := C_pos
    have hπ := Real.pi_pos
    have hden : (0 : ℝ) < 4 * Real.pi * C := by positivity
    set q := G * (m * MSUN) / C ^ 2 * (1 + Real.sqrt (1 - a ^ 2)) with hq
    have hb2 : b₁ ^ 2 ≤ b₂ ^ 2 := pow_le_pow_left hb0 hb12 2
    have hsq : (a * C / (2 * q) * (b₁ * Real.pi * q ^ 2)) ^ 2 ≤
        (a * C / (2 * q) * (b₂ * Real.pi * q ^ 2)) ^ 2 := by
      nlinarith [mul_le_mul_of_nonneg_right hb2
        (sq_nonneg (a * C / (2 * q) * (Real.pi * q ^ 2)))]
    exact (div_le_div_right hden).mpr
      (mul_le_mul_of_nonneg_left hsq (by positivity))
  · intro m b a₁ a₂ hm h0 h12 h89
    rw [power_eq m a₁ b hm, power_eq m a₂ b hm]
    have hG := G_pos
    have hM := MSUN_pos
    have hC := C_pos
    have hπ := Real.pi_pos
    have hK : 0 ≤ Real.pi * C * b ^ 2 * (G * (m * MSUN) / C ^ 2) ^ 2 / 160 := by
      positivity
    exact mul_le_mul_of_nonneg_left (spinFactor_mono h0 h12 h89) hK

/-- Claim C1 (witness): the amended monotonicity instantiated at
concrete fields `1 ≤ 2` and spins `0.1 ≤ 0.2`. -/
theorem C1_witness :
    (update_derived_quantities 1 0.5 1).power ≤
      (update_derived_quantities 1 0.5 2).power ∧
    (update_derived_quantities 1 0.1 1).power ≤
      (update_derived_quantities 1 0.2 1).power :=
  ⟨C1_power_monotone.1 1 0.5 1 2 (by norm_num) (by norm_num),
   C1_power_monotone.2 1 1 0.1 0.2 (by norm_num) (by norm_num) (by norm_num)
     (by norm_num)⟩

/-! ### Claim C2 -/

/-- Claim C2: for every viewing angle in `[0, π]`, jet direction in
`{+1, -1}` and jet velocity in `[0.1, 0.999]`, the Doppler-factor
operation has a positive Lorentz-factor square root and a positive
denominator (so the computation never divides by zero), and its result
lies in `[0.01, 50]`. -/
theorem C2_doppler_bounded (beta theta dir : ℝ) (hθ0 : 0 ≤ theta)
    (hθπ : theta ≤ Real.pi) (hdir : dir = 1 ∨ dir = -1)
    (hβ1 : 0.1 ≤ beta) (hβ2 : beta ≤ 0.999) :
    0 < Real.sqrt (1 - beta ^ 2) ∧
    0 < (RelativisticEffects.init beta).gamma *
        (1 - beta * (Real.cos theta * dir)) ∧
    0.01 ≤ calculate_doppler_factor (RelativisticEffects.init beta) theta dir ∧
    calculate_doppler_factor (RelativisticEffects.init beta) theta dir ≤ 50 := by
  have h1 : (0 : ℝ) < 1 - beta ^ 2 := by nlinarith
  have hs : 0 < Real.sqrt (1 - beta ^ 2) := Real.sqrt_pos.mpr h1
  have hγ : 0 < (RelativisticEffects.init beta).gamma := by
    rw [init_gamma]
    positivity
  have hden : 0 < 1 - beta * (Real.cos theta * dir) := by
    have hc1 := Real.neg_one_le_cos theta
    have hc2 := Real.cos_le_one theta
    rcases hdir with h | h <;> subst h <;> nlinarith
  refine ⟨hs, mul_pos hγ hden, ?_, ?_⟩
  · rw [doppler_def]
    exact le_max_left _ _
  · rw [doppler_def]
    exact max_le (by norm_num) (min_le_right _ _)

/-- Claim C2 (witness): the bounds instantiated at `β = 0.5`, `θ = 0`,
approaching jet. -/
theorem C2_witness :
    0 < Real.sqrt (1 - (0.5 : ℝ) ^ 2) ∧
    0 < (RelativisticEffects.init 0.5).gamma *
        (1 - 0.5 * (Real.cos 0 * 1)) ∧
    0.01 ≤ calculate_doppler_factor (RelativisticEffects.init 0.5) 0 1 ∧
    calculate_doppler_factor (RelativisticEffects.init 0.5) 0 1 ≤ 50 :=
  C2_doppler_bounded 0.5 0 1 le_rfl Real.pi_nonneg (Or.inl rfl)
    (by norm_num) (by norm_num)

/-! ### Claim C3 -/

/-- Claim C3 (counterexample): the constructor stores its spin argument
unchecked, so constructing with spin 2 leaves a stored spin outside
`[0, 1)` — the claimed invariant fails after construction. -/
theorem C3_counterexample :
    (init 10 2 1e4).spin = 2 ∧
    ¬ (0 ≤ (init 10 2 1e4).spin ∧ (init 10 2 1e4).spin < 1) := by
  have h : (init 10 2 1e4).spin = 2 := rfl
  refine ⟨h, fun hc => ?_⟩
  rw [h] at hc
  norm_num at hc

/-- Claim C3 (amended): the spin setter clamps every numeric input into
`[0, 0.999] ⊆ [0, 1)`; the constructor preserves the invariant only for
inputs already inside `[0, 1)`. -/
theorem C3_spin_invariant :
    (∀ (s : BlandfordZnajekJet) (v : ℝ),
       0 ≤ (set_spin s v).spin ∧ (set_spin s v).spin < 1) ∧
    (∀ m a b : ℝ, 0 ≤ a → a < 1 →
       0 ≤ (init m a b).spin ∧ (init m a b).spin < 1) := by
  constructor
  · intro s v
    have h : (set_spin s v).spin = max 0 (min 0.999 v) := rfl
    rw [h]
    refine ⟨le_max_left _ _, ?_⟩
    apply max_lt (by norm_num)
    exact lt_of_le_of_lt (min_le_left _ _) (by norm_num)
  · intro m a b h0 h1
    exact ⟨h0, h1⟩

/-- Claim C3 (witness): the setter and in-range constructor invariants
instantiated at concrete states and inputs. -/
theorem C3_witness :
    (0 ≤ (set_spin (init 10 0.9 1e4) 7).spin ∧
       (set_spin (init 10 0.9 1e4) 7).spin < 1) ∧
    (0 ≤ (init 5 0.5 100).spin ∧ (init 5 0.5 100).spin < 1) :=
  ⟨C3_spin_invariant.1 (init 10 0.9 1e4) 7,
   C3_spin_invariant.2 5 0.5 100 (by norm_num) (by norm_num)⟩

/-! ### Claim C4 -/

lemma fluct_factor_zero : fluct_factor 0 0.5 = 1 := by
  unfold fluct_factor
  norm_num

/-- Claim C4 (counterexample): `fluctuate` returns the fluctuated power
`self.power * fluct_factor`, not the multiplicative factor itself; at
`t = 0` with the median uniform draw the factor is exactly 1 and the
returned value is the full jet power of the state `(10, 0.6, 1e4)`,
far above 1.5. -/
theorem C4_counterexample :
    1.5 < (fluctuate (init 10 0.6 1e4) 0 0.5).2 := by
  have hval : (fluctuate (init 10 0.6 1e4) 0 0.5).2 =
      (update_derived_quantities 10 0.6 1e4).power * fluct_factor 0 0.5 := rfl
  rw [hval, fluct_factor_zero, mul_one]
  have h64 : Real.sqrt (1 - (0.6 : ℝ) ^ 2) = 0.8 := by
    rw [show (1 : ℝ) - 0.6 ^ 2 = 0.8 ^ 2 by norm_num]
    exact Real.sqrt_sq (by norm_num)
  rw [power_eq 10 0.6 1e4 (by norm_num), h64]
  simp only [C, G, MSUN]
  ring_nf
  nlinarith [Real.pi_gt_three]

/-- Claim C4 (amended): the returned value is the stored power times the
fluctuation factor; it is that factor (not the return value) which is
bounded, lying in `[0.5, 1.5]` (indeed in `[0.835, 1.165]`) for every
time and every uniform draw `r ∈ [0, 1]`. -/
theorem C4_factor_bounded (s : BlandfordZnajekJet) (t r : ℝ)
    (h0 : 0 ≤ r) (h1 : r ≤ 1) :
    (fluctuate s t r).2 = s.power * fluct_factor t r ∧
    0.5 ≤ fluct_factor t r ∧ fluct_factor t r ≤ 1.5 := by
  have hs1 := Real.neg_one_le_sin (2 * Real.pi * t / 3)
  have hs2 := Real.sin_le_one (2 * Real.pi * t / 3)
  have hs3 := Real.neg_one_le_sin (2 * Real.pi * t / 20)
  have hs4 := Real.sin_le_one (2 * Real.pi * t / 20)
  refine ⟨rfl, ?_, ?_⟩ <;> unfold fluct_factor <;> dsimp only <;> linarith

/-- Claim C4 (witness): the factor bounds instantiated at `t = 0`,
`r = 0` on the default state. -/
theorem C4_witness :
    (fluctuate (init 10 0.9 1e4) 0 0).2 =
      (init 10 0.9 1e4).power * fluct_factor 0 0 ∧
    0.5 ≤ fluct_factor 0 0 ∧ fluct_factor 0 0 ≤ 1.5 :=
  C4_factor_bounded (init 10 0.9 1e4) 0 0 le_rfl (by norm_num)

/-! ### Claim C5 -/

/-- Claim C5 (counterexample): the `bzsim.py` fluctuation operation,
named by the claim, mutates the stored power: at `t = 0` with a normal
draw of 1 the stored power of the state `(1, 0.5, 1)` changes. -/
theorem C5_counterexample :
    (bzsim_fluctuate (bzsim_init 1 0.5 1) 0 1).power ≠
      (bzsim_init 1 0.5 1).power := by
  have hfl : bzsim_fluct 0 1 = 1.1 := by
    unfold bzsim_fluct
    norm_num
  have hval : (bzsim_fluctuate (bzsim_init 1 0.5 1) 0 1).power =
      (bzsim_init 1 0.5 1).power * bzsim_fluct 0 1 := rfl
  rw [hval, hfl]
  have hp : 0 < (bzsim_init 1 0.5 1).power := by
    have h : (bzsim_init 1 0.5 1).power =
        KAPPA / (4 * Real.pi * C) * 0.5 ^ 2 * 1 ^ 2 * ((1 : ℝ) * MSUN) ^ 2 := rfl
    rw [h]
    have hK := KAPPA_pos
    have hC := C_pos
    have hM := MSUN_pos
    have hπ := Real.pi_pos
    positivity
  intro h
  nlinarith

/-- Claim C5 (amended): the `physics.py` fluctuation operation leaves
every stored field of the state unchanged; the legacy `bzsim.py`
variant instead scales the stored power and energy density in place by
the fluctuation factor, leaving the three inputs unchanged. -/
theorem C5_frame :
    (∀ (s : BlandfordZnajekJet) (t r : ℝ), (fluctuate s t r).1 = s) ∧
    (∀ (s : BZSimJet) (t r : ℝ),
       (bzsim_fluctuate s t r).power = s.power * bzsim_fluct t r ∧
       (bzsim_fluctuate s t r).energy_density =
         s.energy_density * bzsim_fluct t r ∧
       (bzsim_fluctuate s t r).mass = s.mass ∧
       (bzsim_fluctuate s t r).spin = s.spin ∧
       (bzsim_fluctuate s t r).B = s.B) :=
  ⟨fun _ _ _ => rfl, fun _ _ _ => ⟨rfl, rfl, rfl, rfl, rfl⟩⟩

/-! ### Claim C6 -/

lemma Z1_zero : Z1 0 = 3 := by
  unfold Z1
  norm_num [Real.one_rpow]

lemma Z2_zero : Z2 0 = 3 := by
  have h : (3 : ℝ) * 0 ^ 2 + Z1 0 ^ 2 = 3 ^ 2 := by rw [Z1_zero]; norm_num
  rw [Z2, h]
  exact Real.sqrt_sq (by norm_num)

lemma iscoFactor_zero : iscoFactor 0 = 6 := by
  rw [iscoFactor, Z1_zero, Z2_zero]
  norm_num [Real.sqrt_zero]

lemma Z1_continuousAt : ContinuousAt Z1 0 := by
  unfold Z1
  have hbase₁ : ContinuousAt (fun a : ℝ => 1 - a ^ 2) 0 := by fun_prop
  have hbase₂ : ContinuousAt (fun a : ℝ => 1 + a) 0 := by fun_prop
  have hbase₃ : ContinuousAt (fun a : ℝ => 1 - a) 0 := by fun_prop
  have h₁ : ContinuousAt (fun a : ℝ => (1 - a ^ 2) ^ ((1 : ℝ) / 3)) 0 :=
    hbase₁.rpow_const (Or.inr (by norm_num))
  have h₂ : ContinuousAt (fun a : ℝ => (1 + a) ^ ((1 : ℝ) / 3)) 0 :=
    hbase₂.rpow_const (Or.inr (by norm_num))
  have h₃ : ContinuousAt (fun a : ℝ => (1 - a) ^ ((1 : ℝ) / 3)) 0 :=
    hbase₃.rpow_const (Or.inr (by norm_num))
  exact continuousAt_const.add (h₁.mul (h₂.add h₃))

lemma Z2_continuousAt : ContinuousAt Z2 0 := by
  unfold Z2
  have h : ContinuousAt (fun a : ℝ => 3 * a ^ 2 + Z1 a ^ 2) 0 :=
    ContinuousAt.add (by fun_prop) (Z1_continuousAt.pow 2)
  exact Real.continuous_sqrt.continuousAt.comp h

lemma iscoFactor_continuousAt : ContinuousAt iscoFactor 0 := by
  unfold iscoFactor
  have h₁ : ContinuousAt (fun a : ℝ => (3 - Z1 a) * (3 + Z1 a + 2 * Z2 a)) 0 :=
    (continuousAt_const.sub Z1_continuousAt).mul
      ((continuousAt_const.add Z1_continuousAt).add
        (continuousAt_const.mul Z2_continuousAt))
  exact (continuousAt_const.add Z2_continuousAt).sub
    (Real.continuous_sqrt.continuousAt.comp h₁)

/-- Claim C6: at spin 0 the stored ISCO radius is exactly
`6 G M / c ^ 2`, and the Bardeen-Press-Teukolsky branch used for
positive spins tends to the same value as the spin tends to zero from
the right, so the two branches agree at the boundary. -/
theorem C6_isco_boundary (m b : ℝ) :
    (update_derived_quantities m 0 b).isco_radius =
      6 * G * (m * MSUN) / C ^ 2 ∧
    Filter.Tendsto (fun a => (update_derived_quantities m a b).isco_radius)
      (nhdsWithin 0 (Set.Ioi 0)) (nhds (6 * G * (m * MSUN) / C ^ 2)) := by
  constructor
  · rw [update_isco_eq, if_neg (lt_irrefl (0 : ℝ))]
  · have hev : (fun a : ℝ => iscoFactor a * (G * (m * MSUN) / C ^ 2)) =ᶠ[nhdsWithin 0 (Set.Ioi 0)]
        (fun a => (update_derived_quantities m a b).isco_radius) := by
      refine Filter.eventuallyEq_of_mem self_mem_nhdsWithin fun a ha => ?_
      rw [update_isco_eq, if_pos (Set.mem_Ioi.mp ha)]
    have htend : Filter.Tendsto iscoFactor (nhdsWithin 0 (Set.Ioi 0))
        (nhds (iscoFactor 0)) :=
      iscoFactor_continuousAt.tendsto.mono_left nhdsWithin_le_nhds
    rw [iscoFactor_zero] at htend
    have := htend.mul_const (G * (m * MSUN) / C ^ 2)
    have heq : (6 : ℝ) * (G * (m * MSUN) / C ^ 2) = 6 * G * (m * MSUN) / C ^ 2 := by
      ring
    rw [heq] at this
    exact this.congr' hev

/-! ### Claim C7 -/

/-- Claim C7 (counterexample): the constructor of `RelativisticEffects`
uses the raw velocity without clamping: constructing with velocity 1
stores a value outside `[0.1, 0.999]` and makes the Lorentz-factor
denominator `sqrt (1 - beta ^ 2)` exactly zero, so the computation
divides by zero. -/
theorem C7_counterexample :
    (RelativisticEffects.init 1).jet_velocity = 1 ∧
    Real.sqrt (1 - (RelativisticEffects.init 1).jet_velocity ^ 2) = 0 ∧
    ¬ (0.1 ≤ (RelativisticEffects.init 1).jet_velocity ∧
       (RelativisticEffects.init 1).jet_velocity ≤ 0.999) := by
  refine ⟨rfl, ?_, fun hc => ?_⟩
  · rw [init_jet_velocity]
    norm_num [Real.sqrt_zero]
  · rw [init_jet_velocity] at hc
    exact absurd hc.2 (by norm_num)

/-- Claim C7 (amended): `update_jet_velocity` does clamp every input into
`[0.1, 0.999]` before the Lorentz formula, so after any update the
square root in the denominator is strictly positive and the stored
`gamma` equals `1 / sqrt (1 - beta ^ 2)` with a nonzero divisor; only
the constructor omits the clamp. -/
theorem C7_update_clamps (s : RelativisticEffects) (v : ℝ) :
    0.1 ≤ (update_jet_velocity s v).jet_velocity ∧
    (update_jet_velocity s v).jet_velocity ≤ 0.999 ∧
    0 < Real.sqrt (1 - (update_jet_velocity s v).jet_velocity ^ 2) ∧
    (update_jet_velocity s v).gamma =
      1 / Real.sqrt (1 - (update_jet_velocity s v).jet_velocity ^ 2) := by
  rw [update_jet_velocity_v, update_jet_velocity_gamma]
  set w := max 0.1 (min 0.999 v) with hw
  have h1 : (0.1 : ℝ) ≤ w := le_max_left _ _
  have h2 : w ≤ 0.999 := max_le (by norm_num) (min_le_left _ _)
  refine ⟨h1, h2, ?_, rfl⟩
  apply Real.sqrt_pos.mpr
  nlinarith

/-! ### Claim C8 -/

/-- Claim C8: the jet-velocity saturation curve is strictly below 1 for
every finite power, is monotonically non-decreasing in power, and is
exactly the function applied to the computed power by the
derived-quantity update. -/
theorem C8_jet_velocity :
    (∀ p : ℝ, jet_velocity_of_power p < 1) ∧
    (∀ p₁ p₂ : ℝ, p₁ ≤ p₂ →
       jet_velocity_of_power p₁ ≤ jet_velocity_of_power p₂) ∧
    (∀ m a b : ℝ, (update_derived_quantities m a b).jet_velocity =
       jet_velocity_of_power ((update_derived_quantities m a b).power)) := by
  refine ⟨?_, ?_, fun m a b => rfl⟩
  · intro p
    unfold jet_velocity_of_power
    have h := tanh_lt_one (min (p / 1e39) 10 / 5)
    linarith
  · intro p₁ p₂ h
    unfold jet_velocity_of_power
    have hmin : min (p₁ / 1e39) 10 ≤ min (p₂ / 1e39) 10 := by
      apply min_le_min ?_ le_rfl
      gcongr
    have := tanh_mono (show min (p₁ / 1e39) 10 / 5 ≤ min (p₂ / 1e39) 10 / 5 by
      linarith)
    linarith

/-- Claim C8 (witness): monotonicity instantiated at powers `0 ≤ 1e39`. -/
theorem C8_witness :
    jet_velocity_of_power 0 ≤ jet_velocity_of_power 1e39 :=
  C8_jet_velocity.2.1 0 1e39 (by norm_num)

/-! ### Claim C9 -/

/-- Claim C9: applying the setters `mass := 10`, `spin := 0.9`,
`B := 1e4` to any starting state produces exactly the state constructed
directly from `(10, 0.9, 1e4)`, and in particular the derived-quantity
snapshot read back is identical — nothing is stale or order-dependent. -/
theorem C9_roundtrip (s : BlandfordZnajekJet) :
    set_B (set_spin (set_mass s 10) 0.9) 1e4 = init 10 0.9 1e4 ∧
    get_physical_scales (set_B (set_spin (set_mass s 10) 0.9) 1e4) =
      get_physical_scales (init 10 0.9 1e4) := by
  have h : set_B (set_spin (set_mass s 10) 0.9) 1e4 = init 10 0.9 1e4 := by
    show update_derived_quantities (max 0.1 10) (max 0 (min 0.999 0.9))
        (max 1 1e4) = update_derived_quantities 10 0.9 1e4
    rw [max_eq_right (by norm_num : (0.1 : ℝ) ≤ 10),
        min_eq_right (by norm_num : (0.9 : ℝ) ≤ 0.999),
        max_eq_right (by norm_num : (0 : ℝ) ≤ 0.9),
        max_eq_right (by norm_num : (1 : ℝ) ≤ 1e4)]
  exact ⟨h, by rw [h]⟩

/-! ### Claim C10 -/

lemma power_nonneg (m a b : ℝ) : 0 ≤ (update_derived_quantities m a b).power := by
  rw [update_power_eq]
  have hC := C_pos
  have hπ := Real.pi_pos
  positivity

/-- Claim C10: after every derived-quantity recomputation the stored jet
velocity lies in `[0.8, 0.95]`, never falling below 0.8 even at zero
power and never reaching 0.95. -/
theorem C10_velocity_band (m a b : ℝ) :
    0.8 ≤ (update_derived_quantities m a b).jet_velocity ∧
    (update_derived_quantities m a b).jet_velocity < 0.95 := by
  rw [update_jet_velocity_eq]
  set p := (update_derived_quantities m a b).power with hp
  have hp0 : 0 ≤ p := power_nonneg m a b
  unfold jet_velocity_of_power
  constructor
  · have harg : 0 ≤ min (p / 1e39) 10 / 5 := by
      have : (0 : ℝ) ≤ min (p / 1e39) 10 := le_min (by positivity) (by norm_num)
      linarith
    have := tanh_nonneg harg
    linarith
  · have := tanh_lt_one (min (p / 1e39) 10 / 5)
    linarith

end BZ
